import Mathlib

/-!
Verification of the event-filtering and lazy-resolution layer
(`telethon/events/common.py`): peer-identifier normalization, chat
allow/deny-list filtering, and the multi-strategy resolution of an event's
input chat.  Python machine state (the mutable fields of an event or builder)
is passed explicitly; external client calls are modelled by a `Client` record
of response functions, and every call performed is recorded in a trace.
-/

/-- A typed peer reference: a chat identified by kind and raw id
(`types.PeerUser` / `types.PeerChat` / `types.PeerChannel`). -/
inductive Peer
  | user (id : Int)
  | chat (id : Int)
  | channel (id : Int)
deriving DecidableEq, Repr

/-- Modelled from the spec: `utils.get_peer_id` is outside this file.  The spec
requires a fixed deterministic encoding of kind + raw id into a signed
canonical ID, unique per (kind, raw-id) pair and reversible, with negative
values reserved for marked (non-user) chats.  We use the marked-ID scheme:
users keep their id, basic groups are negated, channels are negated past the
`-1000000000000` offset. -/
def get_peer_id : Peer → Int
  | Peer.user i => i
  | Peer.chat i => -i
  | Peer.channel i => -(1000000000000 + i)

/-- An addressable input-reference form of a chat (`InputPeer`). -/
structure InputPeer where
  key : Int
deriving DecidableEq, Repr

/-- A full chat entity (`User`/`Chat`/`Channel`), identified abstractly. -/
structure Entity where
  key : Int
deriving DecidableEq, Repr

/-- One dialog yielded by the client's `iter_dialogs` sequence. -/
structure Dialog where
  id : Int
  entity : Entity
  input_entity : InputPeer
deriving DecidableEq, Repr

/-- A message as returned by `client.get_messages`, carrying its
already-resolved chat and input-chat pair. -/
structure Message where
  _chat : Option Entity
  _input_chat : Option InputPeer
deriving DecidableEq, Repr

/-- Python exceptions this layer can observe: `ValueError` is the "not found"
failure raised by `get_input_entity` (the only one caught locally),
`TypeError` arises from misusing `None`, and `rpcError` stands for any other
external failure. -/
inductive PyErr
  | valueError
  | typeError
  | rpcError (code : Int)
deriving DecidableEq, Repr

/-- Result of a fallible computation: a value or a propagated exception. -/
inductive Res (α : Type)
  | ok (val : α)
  | err (e : PyErr)
deriving DecidableEq, Repr

/-- What `client.get_input_entity` returns for a non-integer, non-Peer chat
reference: either `InputPeerSelf` or an input peer identified by its peer. -/
inductive LookupResult
  | selfPeer
  | peer (p : Peer)
deriving DecidableEq, Repr

/-- One external client call, as recorded in a trace.  `dialogNext d` records
that the dialog iterator yielded `d` (one network-backed step of the lazy
sequence). -/
inductive Call
  | getInputEntity (p : Peer)
  | getMessages (msgId : Int)
  | iterDialogs
  | dialogNext (d : Dialog)
  | getEntity (ip : Option InputPeer)
  | getMe
  | lookupRef (s : String)
deriving DecidableEq, Repr

/-- The external client collaborator, as a record of its responses.
`get_input_entity` answers peer-to-input-peer resolution; `lookup_ref`
answers `get_input_entity` for opaque references (usernames etc.); `get_me`
yields the client's own user id (the canonical id of its input peer);
`dialogs` is the finite sequence `iter_dialogs` yields. -/
structure Client where
  get_input_entity : Peer → Res InputPeer
  lookup_ref : String → Res LookupResult
  get_me : Res Int
  get_messages : Int → Res Message
  dialogs : List Dialog
  get_entity : Option InputPeer → Res Entity

/-- The mutable state of an `EventCommon` instance. -/
structure EventCommon where
  _chat_peer : Option Peer
  _message_id : Option Int
  _input_chat : Option InputPeer
  _chat : Option Entity
  _entities : List (Int × Entity)
  is_private : Bool
  is_group : Bool
  is_channel : Bool
deriving DecidableEq, Repr

/-- `EventCommon.__init__(chat_peer=None, msg_id=None, broadcast=False)`:
derives the classification flags once from the peer's type tag and the
broadcast flag. -/
def EventCommon.init (chat_peer : Option Peer) (msg_id : Option Int)
    (broadcast : Bool) : EventCommon :=
  { _chat_peer := chat_peer
    _message_id := msg_id
    _input_chat := none
    _chat := none
    _entities := []
    is_private := match chat_peer with
      | some (Peer.user _) => true
      | _ => false
    is_group := (match chat_peer with
      | some (Peer.chat _) => true
      | some (Peer.channel _) => true
      | _ => false) && !broadcast
    is_channel := match chat_peer with
      | some (Peer.channel _) => true
      | _ => false }

/-- `isinstance(peer, types.PeerChannel)`. -/
def Peer.isChannel : Peer → Bool
  | Peer.channel _ => true
  | _ => false

/-- Modelled from the spec: `utils.get_peer_id` is outside this file; applied
to `None` (no peer reference at all) it raises a `TypeError` rather than
producing a canonical ID. -/
def get_peer_id_opt : Option Peer → Res Int
  | some p => Res.ok (get_peer_id p)
  | none => Res.err PyErr.typeError

/-- `self._entities.get(key)`: lookup in the locally supplied entity table. -/
def entitiesGet (l : List (Int × Entity)) (k : Int) : Option Entity :=
  (l.find? (fun q => q.1 == k)).map (fun q => q.2)

/-- Outcome of evaluating a lazy property: the returned value (or propagated
exception), the event state after the access, and the trace of external
client calls performed. -/
structure Resolution (α : Type) where
  result : Res α
  event : EventCommon
  calls : List Call
deriving DecidableEq, Repr

/-- The `async for d in self._client.iter_dialogs()` loop of `input_chat`:
every dialog whose id equals the target assigns `self._chat` and
`self._input_chat`; there is no `break`, so the whole sequence is consumed
and a later match overwrites an earlier one. -/
def dialogScanLoop (target : Int) (e : EventCommon) :
    List Dialog → EventCommon × List Call
  | [] => (e, [])
  | d :: ds =>
      let e1 := if d.id = target then
          { e with _chat := some d.entity, _input_chat := some d.input_entity }
        else e
      let r := dialogScanLoop target e1 ds
      (r.1, Call.dialogNext d :: r.2)

/-- The `input_chat` async property: on a cache miss with a peer present,
try direct `get_input_entity`; on `ValueError`, either fetch the message by id
(non-channel peer with a message id) and adopt its pair, or scan the dialog
list; finally `return self._input_chat`. -/
def EventCommon.input_chat (c : Client) (e : EventCommon) :
    Resolution (Option InputPeer) :=
  match e._chat_peer, e._input_chat with
  | some peer, none =>
      match c.get_input_entity peer with
      | Res.ok ip =>
          let e1 : EventCommon := { e with _input_chat := some ip }
          { result := Res.ok e1._input_chat, event := e1,
            calls := [Call.getInputEntity peer] }
      | Res.err PyErr.valueError =>
          match peer.isChannel, e._message_id with
          | false, some mid =>
              match c.get_messages mid with
              | Res.ok msg =>
                  let e1 : EventCommon :=
                    { e with _chat := msg._chat, _input_chat := msg._input_chat }
                  { result := Res.ok e1._input_chat, event := e1,
                    calls := [Call.getInputEntity peer, Call.getMessages mid] }
              | Res.err er =>
                  { result := Res.err er, event := e,
                    calls := [Call.getInputEntity peer, Call.getMessages mid] }
          | _, _ =>
              let target := get_peer_id peer
              let s := dialogScanLoop target e c.dialogs
              { result := Res.ok s.1._input_chat, event := s.1,
                calls := Call.getInputEntity peer :: Call.iterDialogs :: s.2 }
      | Res.err er =>
          { result := Res.err er, event := e,
            calls := [Call.getInputEntity peer] }
  | _, _ => { result := Res.ok e._input_chat, event := e, calls := [] }

/-- The guard of the `chat` property is `if not self.input_chat: return None`.
`input_chat` is an async property: reading it calls the getter and yields an
unawaited coroutine object, and a coroutine object is always truthy in
Python, so `not self.input_chat` is constantly false; the early return is
dead code, and no client call happens because the coroutine is never
awaited. -/
def not_unawaited_input_chat : Bool := false

/-- The `chat` async property: after the (dead) truthiness guard, fall back to
the local entity table keyed by `get_peer_id(self._chat_peer)`, then to an
external `get_entity(self._input_chat)` call; `return self._chat`. -/
def EventCommon.chat (c : Client) (e : EventCommon) : Resolution (Option Entity) :=
  if not_unawaited_input_chat then
    { result := Res.ok none, event := e, calls := [] }
  else
    match e._chat with
    | some ch => { result := Res.ok (some ch), event := e, calls := [] }
    | none =>
        match get_peer_id_opt e._chat_peer with
        | Res.err er => { result := Res.err er, event := e, calls := [] }
        | Res.ok pid =>
            match entitiesGet e._entities pid with
            | some ent =>
                { result := Res.ok (some ent),
                  event := { e with _chat := some ent }, calls := [] }
            | none =>
                match c.get_entity e._input_chat with
                | Res.ok ent =>
                    { result := Res.ok (some ent),
                      event := { e with _chat := some ent },
                      calls := [Call.getEntity e._input_chat] }
                | Res.err er =>
                    { result := Res.err er, event := e,
                      calls := [Call.getEntity e._input_chat] }

/-- One element of the builder's `chats` argument: a bare integer, a typed
peer object (a `TLObject` whose `SUBCLASS_OF_ID` is `crc32(b'Peer')`), or any
other reference (username, phone, …) needing an external lookup. -/
inductive ChatRef
  | int (i : Int)
  | peerRef (p : Peer)
  | entityRef (s : String)
deriving DecidableEq, Repr

/-- The `chats` field of a builder is either the unresolved input collection
or, after `resolve`, a finalized set of canonical ids. -/
inductive ChatsState
  | refs (l : List ChatRef)
  | ids (s : Finset Int)
deriving DecidableEq

/-- The `EventBuilder` state: chat filter configuration, blacklist flag, and
the self id recorded during `resolve`. -/
structure EventBuilder where
  chats : Option ChatsState
  blacklist_chats : Bool
  _self_id : Option Int
deriving DecidableEq

/-- The per-element loop of `_into_id_set`: negative integers are added
verbatim, non-negative integers contribute their three per-kind encodings,
typed peers encode directly, and anything else goes through
`client.get_input_entity` (substituting `get_me` for `InputPeerSelf`).  The
first external failure aborts the whole computation. -/
def intoIdSetGo (c : Client) : List ChatRef → Finset Int → Res (Finset Int)
  | [], acc => Res.ok acc
  | ChatRef.int i :: rest, acc =>
      if i < 0 then intoIdSetGo c rest (insert i acc)
      else intoIdSetGo c rest
        (acc ∪ {get_peer_id (Peer.user i), get_peer_id (Peer.chat i),
                get_peer_id (Peer.channel i)})
  | ChatRef.peerRef p :: rest, acc =>
      intoIdSetGo c rest (insert (get_peer_id p) acc)
  | ChatRef.entityRef s :: rest, acc =>
      match c.lookup_ref s with
      | Res.err er => Res.err er
      | Res.ok LookupResult.selfPeer =>
          match c.get_me with
          | Res.err er => Res.err er
          | Res.ok uid => intoIdSetGo c rest (insert uid acc)
      | Res.ok (LookupResult.peer p) =>
          intoIdSetGo c rest (insert (get_peer_id p) acc)

/-- `_into_id_set(client, chats)`: `None` stays `None`; otherwise the input
collection is folded into a set of canonical ids. -/
def _into_id_set (c : Client) : Option (List ChatRef) → Res (Option (Finset Int))
  | none => Res.ok none
  | some chats =>
      match intoIdSetGo c chats ∅ with
      | Res.ok s => Res.ok (some s)
      | Res.err er => Res.err er

/-- View the current `chats` field as the collection `_into_id_set` iterates:
an already-resolved set of ids is itself an iterable of integers. -/
def chatsAsInput : Option ChatsState → Option (List ChatRef)
  | none => none
  | some (ChatsState.refs l) => some l
  | some (ChatsState.ids s) =>
      some ((s.sort (fun a b => a ≤ b)).map ChatRef.int)

/-- `EventBuilder.resolve(client)`: `self.chats = await _into_id_set(...)`,
then `self._self_id = (await client.get_me(input_peer=True)).user_id`.  The
returned builder is the post-state of the mutable object, and the second
component is the exception escaping the call, if any: an exception raised by
a statement leaves the fields that statement would have assigned untouched. -/
def EventBuilder.resolve (c : Client) (b : EventBuilder) :
    EventBuilder × Option PyErr :=
  match _into_id_set c (chatsAsInput b.chats) with
  | Res.err er => (b, some er)
  | Res.ok s =>
      let b1 : EventBuilder := { b with chats := s.map ChatsState.ids }
      match c.get_me with
      | Res.err er => (b1, some er)
      | Res.ok uid => ({ b1 with _self_id := some uid }, none)

/-- Python membership `id in self.chats` for either shape of the field: over
an unresolved list only equal integer elements can match; over a resolved set
it is set membership. -/
def ChatsState.member : ChatsState → Int → Bool
  | ChatsState.refs l, i => l.contains (ChatRef.int i)
  | ChatsState.ids s, i => decide (i ∈ s)

/-- `EventBuilder._filter_event(event)`: with no configured set every event
passes; otherwise `inside = get_peer_id(event._chat_peer) in self.chats`
(raising `TypeError` when the event has no chat peer), and the event is
dropped exactly when `inside == self.blacklist_chats`. -/
def EventBuilder._filter_event (b : EventBuilder) (e : EventCommon) :
    Res (Option EventCommon) :=
  match b.chats with
  | some cs =>
      match e._chat_peer with
      | none => Res.err PyErr.typeError
      | some p =>
          let inside := cs.member (get_peer_id p)
          if inside = b.blacklist_chats then Res.ok none else Res.ok (some e)
  | none => Res.ok (some e)

/-- The nested concrete event type of an event family, holding the class-wide
`_event_name` diagnostic field. -/
structure InnerEvent where
  _event_name : String
deriving DecidableEq, Repr

/-- An event-family class as seen by the `name_inner_event` decorator: its
`__name__` and its nested `Event` attribute, when it has one. -/
structure EventClass where
  name : String
  Event : Option InnerEvent
deriving DecidableEq, Repr

/-- `name_inner_event(cls)`: stamp `cls.Event._event_name` with
`cls.__name__ + ".Event"` when the nested class exists, else emit a warning
(second component `true`) and return the class unchanged. -/
def name_inner_event (cls : EventClass) : EventClass × Bool :=
  match cls.Event with
  | some _ =>
      ({ cls with Event := some { _event_name := cls.name ++ ".Event" } }, false)
  | none => (cls, true)

/-- The last dialog of the list whose id equals the target, if any — the one
whose pair the scan loop leaves in the event. -/
def lastMatch (target : Int) (acc : Option Dialog) : List Dialog → Option Dialog
  | [] => acc
  | d :: ds => lastMatch target (if d.id = target then some d else acc) ds

/-- A client every external call of which fails with the "not found"
`ValueError`, with an empty dialog list. -/
def clientW : Client :=
  { get_input_entity := fun _ => Res.err PyErr.valueError
    lookup_ref := fun _ => Res.err PyErr.valueError
    get_me := Res.ok 77
    get_messages := fun _ => Res.err PyErr.valueError
    dialogs := []
    get_entity := fun _ => Res.err PyErr.valueError }

/-- A client whose dialog list holds two dialogs with the same canonical id
`-5` but different entities and input entities. -/
def dupDialogClient : Client :=
  { clientW with
    dialogs := [Dialog.mk (-5) (Entity.mk 1) (InputPeer.mk 11),
                Dialog.mk (-5) (Entity.mk 2) (InputPeer.mk 22)] }

/-- A client for which direct peer resolution fails but fetching message `9`
succeeds, yielding a message with a resolved chat/input-chat pair. -/
def msgClient : Client :=
  { clientW with
    get_messages := fun i =>
      if i = 9 then Res.ok (Message.mk (some (Entity.mk 3)) (some (InputPeer.mk 33)))
      else Res.err PyErr.valueError }

/-- A client for which direct peer resolution of `PeerUser 7` succeeds and
`get_entity` answers with a fixed entity. -/
def okClient : Client :=
  { clientW with
    get_input_entity := fun p =>
      if p = Peer.user 7 then Res.ok (InputPeer.mk 7) else Res.err PyErr.valueError
    get_entity := fun _ => Res.ok (Entity.mk 99) }

/-- A client whose opaque-reference lookup fails with an RPC error. -/
def errLookupClient : Client :=
  { clientW with lookup_ref := fun _ => Res.err (PyErr.rpcError 420) }

/-- An event whose peer cannot be resolved externally but whose local entity
table holds an entity under the peer's canonical id `7`. -/
def eSeven : EventCommon :=
  { EventCommon.init (some (Peer.user 7)) none false with
    _entities := [((7 : Int), Entity.mk 7)] }

/-- The dialog scan loop yields every dialog of the sequence, in order. -/
theorem dialogScanLoop_calls (target : Int) (ds : List Dialog) :
    ∀ e, (dialogScanLoop target e ds).2 = ds.map Call.dialogNext := by
  induction ds with
  | nil => intro e; rfl
  | cons d ds ih => intro e; simp [dialogScanLoop, ih]

/-- Threading an accumulator through `lastMatch` only matters when the list
holds no match. -/
theorem lastMatch_acc (target : Int) (ds : List Dialog) :
    ∀ acc, lastMatch target acc ds =
      match lastMatch target none ds with
      | some d => some d
      | none => acc := by
  induction ds with
  | nil => intro acc; rfl
  | cons d ds ih =>
      intro acc
      by_cases hd : d.id = target
      · simp only [lastMatch, hd, ite_true]
        rw [ih (some d)]
        cases lastMatch target none ds <;> rfl
      · simp only [lastMatch, hd, ite_false]
        rw [ih acc]

/-- The event the dialog scan leaves behind carries the pair of the last
matching dialog, or is unchanged when no dialog matches. -/
theorem dialogScanLoop_event (target : Int) (ds : List Dialog) :
    ∀ e, (dialogScanLoop target e ds).1 =
      match lastMatch target none ds with
      | some d =>
          { e with _chat := some d.entity, _input_chat := some d.input_entity }
      | none => e := by
  induction ds with
  | nil => intro e; rfl
  | cons d ds ih =>
      intro e
      by_cases hd : d.id = target
      · simp only [dialogScanLoop, lastMatch, hd, ite_true]
        rw [ih]
        rw [lastMatch_acc target ds (some d)]
        cases lastMatch target none ds <;> rfl
      · simp only [dialogScanLoop, lastMatch, hd, ite_false]
        rw [ih]

/-- Whatever value a successful `input_chat` access returns is exactly the
`_input_chat` field it leaves cached on the event. -/
theorem input_chat_result_ok (c : Client) (e : EventCommon) (v : Option InputPeer) :
    (EventCommon.input_chat c e).result = Res.ok v →
    (EventCommon.input_chat c e).event._input_chat = v := by
  cases hp : e._chat_peer with
  | none =>
      simp only [EventCommon.input_chat, hp]
      intro h
      simpa using h
  | some peer =>
      cases hi : e._input_chat with
      | some ip =>
          simp only [EventCommon.input_chat, hp, hi]
          intro h
          simpa [hi] using h
      | none =>
          simp only [EventCommon.input_chat, hp, hi]
          cases hge : c.get_input_entity peer with
          | ok ip =>
              intro h
              simpa using h
          | err er =>
              cases er with
              | valueError =>
                  cases hch : peer.isChannel with
                  | false =>
                      cases hmi : e._message_id with
                      | none =>
                          simp only [hch, hmi]
                          intro h
                          simpa using h
                      | some mid =>
                          simp only [hch, hmi]
                          cases hgm : c.get_messages mid with
                          | ok msg =>
                              intro h
                              simpa using h
                          | err er2 =>
                              intro h
                              simp at h
                  | true =>
                      simp only [hch]
                      intro h
                      simpa using h
              | typeError => intro h; simp at h
              | rpcError code => intro h; simp at h

/-- Whatever entity a successful `chat` access returns is exactly the `_chat`
field it leaves cached on the event. -/
theorem chat_result_ok (c : Client) (e : EventCommon) (v : Option Entity) :
    (EventCommon.chat c e).result = Res.ok v →
    (EventCommon.chat c e).event._chat = v := by
  cases hc : e._chat with
  | some ch =>
      simp only [EventCommon.chat, not_unawaited_input_chat, hc]
      intro h
      simpa [hc] using h
  | none =>
      cases hp : e._chat_peer with
      | none =>
          simp only [EventCommon.chat, not_unawaited_input_chat, hc, hp,
            get_peer_id_opt]
          intro h
          simp at h
      | some peer =>
          simp only [EventCommon.chat, not_unawaited_input_chat, hc, hp,
            get_peer_id_opt]
          cases hel : entitiesGet e._entities (get_peer_id peer) with
          | some ent =>
              intro h
              simpa using h
          | none =>
              cases hent : c.get_entity e._input_chat with
              | ok ent =>
                  intro h
                  simpa using h
              | err er =>
                  intro h
                  simp at h

/-- If the external lookup of some reference in the collection fails, the
whole id-set computation aborts with a propagated exception. -/
theorem intoIdSetGo_err_of_lookup (c : Client) (s : String) (er : PyErr)
    (h : c.lookup_ref s = Res.err er) :
    ∀ (l1 l2 : List ChatRef) (acc : Finset Int),
      ∃ er2, intoIdSetGo c (l1 ++ ChatRef.entityRef s :: l2) acc = Res.err er2 := by
  intro l1
  induction l1 with
  | nil =>
      intro l2 acc
      exact ⟨er, by simp [intoIdSetGo, h]⟩
  | cons r l1 ih =>
      intro l2 acc
      cases r with
      | int i =>
          by_cases hi : i < 0
          · simpa [intoIdSetGo, hi] using ih l2 (insert i acc)
          · simpa [intoIdSetGo, hi] using
              ih l2 (acc ∪ {get_peer_id (Peer.user i), get_peer_id (Peer.chat i),
                get_peer_id (Peer.channel i)})
      | peerRef p => simpa [intoIdSetGo] using ih l2 (insert (get_peer_id p) acc)
      | entityRef s2 =>
          cases hl : c.lookup_ref s2 with
          | err er3 => exact ⟨er3, by simp [intoIdSetGo, hl]⟩
          | ok lr =>
              cases lr with
              | selfPeer =>
                  cases hm : c.get_me with
                  | err er3 => exact ⟨er3, by simp [intoIdSetGo, hl, hm]⟩
                  | ok uid => simpa [intoIdSetGo, hl, hm] using ih l2 (insert uid acc)
              | peer p =>
                  simpa [intoIdSetGo, hl] using ih l2 (insert (get_peer_id p) acc)

/-- Claim C10: the classification flags set at construction are not mutually
exclusive: a channel-kind peer with `broadcast=false` makes `is_group` and
`is_channel` both true; `is_private` implies `is_group` and `is_channel` are
false; and with no chat peer all three flags are false. -/
theorem classification_flags_spec (p : Option Peer) (mid : Option Int) (bc : Bool) :
    ((∃ i, p = some (Peer.channel i)) → bc = false →
      (EventCommon.init p mid bc).is_group = true ∧
      (EventCommon.init p mid bc).is_channel = true) ∧
    ((EventCommon.init p mid bc).is_private = true →
      (EventCommon.init p mid bc).is_group = false ∧
      (EventCommon.init p mid bc).is_channel = false) ∧
    (p = none →
      (EventCommon.init p mid bc).is_private = false ∧
      (EventCommon.init p mid bc).is_group = false ∧
      (EventCommon.init p mid bc).is_channel = false) := by
  refine ⟨?_, ?_, ?_⟩
  · rintro ⟨i, rfl⟩ rfl
    simp [EventCommon.init]
  · intro h
    rcases p with _ | pk
    · simp [EventCommon.init] at h
    · cases pk <;> simp_all [EventCommon.init]
  · rintro rfl
    simp [EventCommon.init]

/-- Witness for `classification_flags_spec` at a concrete broadcast-false
channel event. -/
theorem classification_flags_spec_witness :
    (EventCommon.init (some (Peer.channel 3)) none false).is_group = true ∧
    (EventCommon.init (some (Peer.channel 3)) none false).is_channel = true :=
  (classification_flags_spec (some (Peer.channel 3)) none false).1 ⟨3, rfl⟩ rfl

/-- Claim C9: registration with a nested concrete event type stamps that
type's `_event_name` with `"FamilyName.Event"`; with no nested type a warning
is emitted (flag `true`) and the class is returned unmodified. -/
theorem name_inner_event_spec (cls : EventClass) :
    (∀ inner, cls.Event = some inner →
      name_inner_event cls =
        ({ cls with Event := some { _event_name := cls.name ++ ".Event" } }, false)) ∧
    (cls.Event = none → name_inner_event cls = (cls, true)) := by
  constructor
  · intro inner h
    simp [name_inner_event, h]
  · intro h
    simp [name_inner_event, h]

/-- Witness for `name_inner_event_spec` on a family named `NewMessage` with a
nested event type. -/
theorem name_inner_event_spec_witness :
    name_inner_event (EventClass.mk "NewMessage" (some (InnerEvent.mk "Event"))) =
      (EventClass.mk "NewMessage" (some (InnerEvent.mk "NewMessage.Event")), false) :=
  (name_inner_event_spec
    (EventClass.mk "NewMessage" (some (InnerEvent.mk "Event")))).1
    (InnerEvent.mk "Event") rfl

/-- Claim C2 is violated by the code: the guard of `chat` tests the unawaited
coroutine object `self.input_chat`, which is always truthy, so even when
`input_chat` resolves to absent the `chat` property does not yield absent.
With no chat peer it raises `TypeError` from `get_peer_id(None)`; with an
unresolvable peer it still performs the local entity-table lookup and yields
the entity found there. -/
theorem chat_guard_dead_divergence :
    (EventCommon.input_chat clientW (EventCommon.init none none false)).result =
      Res.ok none ∧
    (EventCommon.chat clientW (EventCommon.init none none false)).result =
      Res.err PyErr.typeError ∧
    (EventCommon.input_chat clientW eSeven).result = Res.ok none ∧
    (EventCommon.chat clientW eSeven).result = Res.ok (some (Entity.mk 7)) := by
  decide

/-- Claim C5: in chat-set resolution a negative integer reference contributes
exactly itself and a non-negative one exactly its three per-kind encodings;
`[-100]` resolves to the singleton set and `[42]` to the 3-element set of
42's user/chat/channel encodings. -/
theorem into_id_set_int_contribution (c : Client) (i : Int) :
    (i < 0 → _into_id_set c (some [ChatRef.int i]) = Res.ok (some {i})) ∧
    (0 ≤ i → _into_id_set c (some [ChatRef.int i]) =
      Res.ok (some {get_peer_id (Peer.user i), get_peer_id (Peer.chat i),
        get_peer_id (Peer.channel i)})) ∧
    _into_id_set c (some [ChatRef.int (-100)]) =
      Res.ok (some ({-100} : Finset Int)) ∧
    ∃ s : Finset Int, _into_id_set c (some [ChatRef.int 42]) = Res.ok (some s) ∧
      s.card = 3 ∧ get_peer_id (Peer.user 42) ∈ s ∧
      get_peer_id (Peer.chat 42) ∈ s ∧ get_peer_id (Peer.channel 42) ∈ s := by
  refine ⟨?_, ?_, ?_, ?_⟩
  · intro hi
    simp [_into_id_set, intoIdSetGo, hi]
  · intro hi
    simp [_into_id_set, intoIdSetGo, not_lt.mpr hi]
  · norm_num [_into_id_set, intoIdSetGo]
  · refine ⟨{42, -42, -1000000000042}, ?_, by decide, by decide, by decide,
      by decide⟩
    norm_num [_into_id_set, intoIdSetGo, get_peer_id]

/-- Witness for `into_id_set_int_contribution` at `-7` and `5`. -/
theorem into_id_set_int_contribution_witness :
    _into_id_set clientW (some [ChatRef.int (-7)]) =
      Res.ok (some ({-7} : Finset Int)) ∧
    _into_id_set clientW (some [ChatRef.int 5]) =
      Res.ok (some {get_peer_id (Peer.user 5), get_peer_id (Peer.chat 5),
        get_peer_id (Peer.channel 5)}) :=
  ⟨(into_id_set_int_contribution clientW (-7)).1 (by norm_num),
   (into_id_set_int_contribution clientW 5).2.1 (by norm_num)⟩

/-- Claim C1: on a resolved builder and an event carrying a chat peer, the
filter returns the event unchanged iff the chat set is `None` or membership
of the peer's canonical id in the set differs from blacklist mode (whitelist
wants membership, blacklist non-membership); otherwise it returns `None`. -/
theorem filter_event_passes_iff (b : EventBuilder) (e : EventCommon) (p : Peer)
    (hp : e._chat_peer = some p)
    (hres : b.chats = none ∨ ∃ s, b.chats = some (ChatsState.ids s)) :
    (b._filter_event e = Res.ok (some e) ↔
      (b.chats = none ∨ ∃ s, b.chats = some (ChatsState.ids s) ∧
        Xor' (get_peer_id p ∈ s) (b.blacklist_chats = true))) ∧
    (b._filter_event e ≠ Res.ok (some e) → b._filter_event e = Res.ok none) := by
  rcases hres with h | ⟨s, h⟩
  · constructor
    · simp [EventBuilder._filter_event, h]
    · intro hne
      exact absurd (by simp [EventBuilder._filter_event, h]) hne
  · by_cases hmem : get_peer_id p ∈ s <;> cases hbl : b.blacklist_chats <;>
      constructor <;>
      simp_all [EventBuilder._filter_event, h, hp, ChatsState.member, Xor']

/-- Witness for `filter_event_passes_iff`: a whitelist holding the canonical
id `7` passes an event from `PeerUser 7`. -/
theorem filter_event_passes_iff_witness :
    (EventBuilder.mk (some (ChatsState.ids {7})) false none)._filter_event
      (EventCommon.init (some (Peer.user 7)) none false) =
    Res.ok (some (EventCommon.init (some (Peer.user 7)) none false)) :=
  (filter_event_passes_iff (EventBuilder.mk (some (ChatsState.ids {7})) false none)
    (EventCommon.init (some (Peer.user 7)) none false) (Peer.user 7) rfl
    (Or.inr ⟨{7}, rfl⟩)).1.mpr
    (Or.inr ⟨{7}, rfl, Or.inl ⟨by decide, by decide⟩⟩)

/-- Claim C3's first-match part is violated by the code: with two dialogs
sharing the target canonical id `-5`, the first matching dialog carries input
entity `11`, yet the event adopts the pair of the second (last) match. -/
theorem dialog_scan_adopts_last_cex :
    ((dupDialogClient.dialogs.filter
        (fun d => d.id == get_peer_id (Peer.chat 5))).head? =
      some (Dialog.mk (-5) (Entity.mk 1) (InputPeer.mk 11))) ∧
    (EventCommon.input_chat dupDialogClient
        (EventCommon.init (some (Peer.chat 5)) none false)).event._input_chat =
      some (InputPeer.mk 22) ∧
    (EventCommon.input_chat dupDialogClient
        (EventCommon.init (some (Peer.chat 5)) none false)).event._chat =
      some (Entity.mk 2) ∧
    InputPeer.mk 22 ≠ InputPeer.mk 11 := by
  decide

/-- Claim C3 amended: in the dialog-scan fallback (taken, after a not-found
failure of direct resolution, whenever the peer is channel-kind or no message
id is present) the event adopts the chat/input-chat pair of the *last* dialog
whose canonical id equals the target — equivalently the first match when
dialog ids are distinct — and the scan always consumes the entire dialog
sequence without short-circuiting. -/
theorem dialog_scan_last_match_full_drain (c : Client) (e : EventCommon) (p : Peer)
    (hp : e._chat_peer = some p) (hic : e._input_chat = none)
    (hnf : c.get_input_entity p = Res.err PyErr.valueError)
    (hbr : p.isChannel = true ∨ e._message_id = none) :
    (EventCommon.input_chat c e).calls =
      Call.getInputEntity p :: Call.iterDialogs :: c.dialogs.map Call.dialogNext ∧
    (∀ d, lastMatch (get_peer_id p) none c.dialogs = some d →
      (EventCommon.input_chat c e).event._chat = some d.entity ∧
      (EventCommon.input_chat c e).event._input_chat = some d.input_entity) ∧
    (lastMatch (get_peer_id p) none c.dialogs = none →
      (EventCommon.input_chat c e).event = e) := by
  have hred : EventCommon.input_chat c e =
      { result := Res.ok (dialogScanLoop (get_peer_id p) e c.dialogs).1._input_chat,
        event := (dialogScanLoop (get_peer_id p) e c.dialogs).1,
        calls := Call.getInputEntity p :: Call.iterDialogs ::
          (dialogScanLoop (get_peer_id p) e c.dialogs).2 } := by
    rcases hbr with hch | hmi
    · simp [EventCommon.input_chat, hp, hic, hnf, hch]
    · cases hch : p.isChannel <;>
        simp [EventCommon.input_chat, hp, hic, hnf, hch, hmi]
  refine ⟨?_, ?_, ?_⟩
  · rw [hred]
    simp [dialogScanLoop_calls]
  · intro d hd
    rw [hred]
    simp [dialogScanLoop_event, hd]
  · intro hd
    rw [hred]
    simp only [dialogScanLoop_event, hd]

/-- Witness for `dialog_scan_last_match_full_drain`: both dialogs of the
duplicate-id client are yielded by the scan. -/
theorem dialog_scan_last_match_full_drain_witness :
    (EventCommon.input_chat dupDialogClient
        (EventCommon.init (some (Peer.chat 5)) none false)).calls =
      Call.getInputEntity (Peer.chat 5) :: Call.iterDialogs ::
        dupDialogClient.dialogs.map Call.dialogNext :=
  (dialog_scan_last_match_full_drain dupDialogClient
    (EventCommon.init (some (Peer.chat 5)) none false) (Peer.chat 5) rfl rfl rfl
    (Or.inr rfl)).1

/-- Claim C4: with a non-channel peer, a message id, and a not-found failure
of direct resolution, `input_chat` resolves through `get_messages`, adopting
the message's chat/input-chat pair, and the dialog scan is never invoked. -/
theorem message_fallback_resolves_input_chat (c : Client) (e : EventCommon)
    (p : Peer) (mid : Int) (msg : Message)
    (hp : e._chat_peer = some p) (hic : e._input_chat = none)
    (hch : p.isChannel = false) (hmid : e._message_id = some mid)
    (hnf : c.get_input_entity p = Res.err PyErr.valueError)
    (hmsg : c.get_messages mid = Res.ok msg) :
    EventCommon.input_chat c e =
      { result := Res.ok msg._input_chat,
        event := { e with _chat := msg._chat, _input_chat := msg._input_chat },
        calls := [Call.getInputEntity p, Call.getMessages mid] } ∧
    Call.iterDialogs ∉ (EventCommon.input_chat c e).calls := by
  have h1 : EventCommon.input_chat c e =
      { result := Res.ok msg._input_chat,
        event := { e with _chat := msg._chat, _input_chat := msg._input_chat },
        calls := [Call.getInputEntity p, Call.getMessages mid] } := by
    simp [EventCommon.input_chat, hp, hic, hnf, hch, hmid, hmsg]
  refine ⟨h1, ?_⟩
  rw [h1]
  simp

/-- Witness for `message_fallback_resolves_input_chat`: a user-kind peer with
message id `9` resolved through `msgClient`. -/
theorem message_fallback_resolves_input_chat_witness :
    EventCommon.input_chat msgClient
        (EventCommon.init (some (Peer.user 1)) (some 9) false) =
      { result := Res.ok (some (InputPeer.mk 33)),
        event := { EventCommon.init (some (Peer.user 1)) (some 9) false with
          _chat := some (Entity.mk 3), _input_chat := some (InputPeer.mk 33) },
        calls := [Call.getInputEntity (Peer.user 1), Call.getMessages 9] } :=
  (message_fallback_resolves_input_chat msgClient
    (EventCommon.init (some (Peer.user 1)) (some 9) false) (Peer.user 1) 9
    (Message.mk (some (Entity.mk 3)) (some (InputPeer.mk 33)))
    rfl rfl rfl rfl rfl (by decide)).1

/-- Claim C6: a failing external lookup inside chat-set resolution makes the
whole computation fail, and the escaping exception leaves the builder exactly
as it was: `resolve` returns the untouched builder state together with the
propagated error. -/
theorem resolve_error_propagates_atomic (c : Client) (b : EventBuilder)
    (l l1 l2 : List ChatRef) (name : String) (er : PyErr)
    (hchats : b.chats = some (ChatsState.refs l)) :
    (c.lookup_ref name = Res.err er →
      ∃ er2, _into_id_set c (some (l1 ++ ChatRef.entityRef name :: l2)) =
        Res.err er2) ∧
    (_into_id_set c (some l) = Res.err er →
      EventBuilder.resolve c b = (b, some er)) := by
  constructor
  · intro hl
    obtain ⟨er2, h⟩ := intoIdSetGo_err_of_lookup c name er hl l1 l2 ∅
    exact ⟨er2, by simp [_into_id_set, h]⟩
  · intro hfail
    simp [EventBuilder.resolve, chatsAsInput, hchats, hfail]

/-- Witness for `resolve_error_propagates_atomic`: an RPC failure of the
lookup leaves the builder's configuration and self id untouched. -/
theorem resolve_error_propagates_atomic_witness :
    (∃ er2, _into_id_set errLookupClient
        (some ([] ++ ChatRef.entityRef "x" :: [])) = Res.err er2) ∧
    EventBuilder.resolve errLookupClient
        (EventBuilder.mk (some (ChatsState.refs [ChatRef.entityRef "x"]))
          false none) =
      (EventBuilder.mk (some (ChatsState.refs [ChatRef.entityRef "x"])) false none,
        some (PyErr.rpcError 420)) :=
  ⟨(resolve_error_propagates_atomic errLookupClient
      (EventBuilder.mk (some (ChatsState.refs [ChatRef.entityRef "x"])) false none)
      [ChatRef.entityRef "x"] [] [] "x" (PyErr.rpcError 420) rfl).1 rfl,
   (resolve_error_propagates_atomic errLookupClient
      (EventBuilder.mk (some (ChatsState.refs [ChatRef.entityRef "x"])) false none)
      [ChatRef.entityRef "x"] [] [] "x" (PyErr.rpcError 420) rfl).2 rfl⟩

/-- Claim C7: once `input_chat` or `chat` has yielded a non-absent value, any
further access returns that same cached value, leaves the event unchanged,
and performs no external client call. -/
theorem lazy_props_cached_after_success (c : Client) (e e1 e2 : EventCommon)
    (ip : InputPeer) (ent : Entity) (cs1 cs2 : List Call) :
    (EventCommon.input_chat c e =
        Resolution.mk (Res.ok (some ip)) e1 cs1 →
      EventCommon.input_chat c e1 = Resolution.mk (Res.ok (some ip)) e1 []) ∧
    (EventCommon.chat c e = Resolution.mk (Res.ok (some ent)) e2 cs2 →
      EventCommon.chat c e2 = Resolution.mk (Res.ok (some ent)) e2 []) := by
  constructor
  · intro h
    have h1 : e1._input_chat = some ip := by
      have hres : (EventCommon.input_chat c e).result = Res.ok (some ip) := by
        rw [h]
      have hev := input_chat_result_ok c e (some ip) hres
      rwa [h] at hev
    cases hp : e1._chat_peer <;> simp [EventCommon.input_chat, hp, h1]
  · intro h
    have h2 : e2._chat = some ent := by
      have hres : (EventCommon.chat c e).result = Res.ok (some ent) := by
        rw [h]
      have hev := chat_result_ok c e (some ent) hres
      rwa [h] at hev
    simp [EventCommon.chat, not_unawaited_input_chat, h2]

/-- Witness for `lazy_props_cached_after_success`: after a successful first
resolution through `okClient`, the second access of either property is a pure
cache hit. -/
theorem lazy_props_cached_after_success_witness :
    EventCommon.input_chat okClient
        ((EventCommon.input_chat okClient
          (EventCommon.init (some (Peer.user 7)) none false)).event) =
      Resolution.mk (Res.ok (some (InputPeer.mk 7)))
        ((EventCommon.input_chat okClient
          (EventCommon.init (some (Peer.user 7)) none false)).event) [] ∧
    EventCommon.chat okClient
        ((EventCommon.chat okClient
          (EventCommon.init (some (Peer.user 7)) none false)).event) =
      Resolution.mk (Res.ok (some (Entity.mk 99)))
        ((EventCommon.chat okClient
          (EventCommon.init (some (Peer.user 7)) none false)).event) [] :=
  ⟨(lazy_props_cached_after_success okClient
      (EventCommon.init (some (Peer.user 7)) none false)
      ((EventCommon.input_chat okClient
        (EventCommon.init (some (Peer.user 7)) none false)).event)
      (EventCommon.init (some (Peer.user 7)) none false)
      (InputPeer.mk 7) (Entity.mk 99)
      [Call.getInputEntity (Peer.user 7)] []).1 (by decide),
   (lazy_props_cached_after_success okClient
      (EventCommon.init (some (Peer.user 7)) none false)
      (EventCommon.init (some (Peer.user 7)) none false)
      ((EventCommon.chat okClient
        (EventCommon.init (some (Peer.user 7)) none false)).event)
      (InputPeer.mk 7) (Entity.mk 99)
      [] [Call.getEntity none]).2 (by decide)⟩

/-- Reduction of `input_chat` in the dialog-scan branch. -/
theorem input_chat_dialog_branch (c : Client) (e : EventCommon) (peer : Peer)
    (hp : e._chat_peer = some peer) (hic : e._input_chat = none)
    (hge : c.get_input_entity peer = Res.err PyErr.valueError)
    (hbr : peer.isChannel = true ∨ e._message_id = none) :
    EventCommon.input_chat c e =
      { result :=
          Res.ok (dialogScanLoop (get_peer_id peer) e c.dialogs).1._input_chat,
        event := (dialogScanLoop (get_peer_id peer) e c.dialogs).1,
        calls := Call.getInputEntity peer :: Call.iterDialogs ::
          (dialogScanLoop (get_peer_id peer) e c.dialogs).2 } := by
  rcases hbr with hch | hmi
  · simp [EventCommon.input_chat, hp, hic, hge, hch]
  · cases hch : peer.isChannel <;>
      simp [EventCommon.input_chat, hp, hic, hge, hch, hmi]

/-- Claim C8 counterexample: when every strategy fails, a later `input_chat`
access performs external calls again instead of returning a cached absent. -/
theorem input_chat_absent_not_cached_cex :
    (EventCommon.input_chat clientW
        (EventCommon.init (some (Peer.chat 5)) none false)).result =
      Res.ok none ∧
    (EventCommon.input_chat clientW
        ((EventCommon.input_chat clientW
          (EventCommon.init (some (Peer.chat 5)) none false)).event)).calls =
      [Call.getInputEntity (Peer.chat 5), Call.iterDialogs] ∧
    (EventCommon.input_chat clientW
        ((EventCommon.input_chat clientW
          (EventCommon.init (some (Peer.chat 5)) none false)).event)).calls ≠
      [] := by
  decide

/-- Claim C8 amended: an `input_chat` resolution that completes with no
strategy succeeding leaves the field at its absent sentinel, so a later
access finds no cached value and re-runs the very same resolution (same
external calls, same outcome); only a non-absent result is cached. -/
theorem input_chat_absent_reattempts (c : Client) (e : EventCommon)
    (h : (EventCommon.input_chat c e).result = Res.ok none) :
    (EventCommon.input_chat c e).event._input_chat = none ∧
    EventCommon.input_chat c ((EventCommon.input_chat c e).event) =
      EventCommon.input_chat c e := by
  refine ⟨input_chat_result_ok c e none h, ?_⟩
  cases hp : e._chat_peer with
  | none => simp [EventCommon.input_chat, hp]
  | some peer =>
      cases hic : e._input_chat with
      | some ip => simp [EventCommon.input_chat, hp, hic] at h
      | none =>
          cases hge : c.get_input_entity peer with
          | ok ip => simp [EventCommon.input_chat, hp, hic, hge] at h
          | err er =>
              cases er with
              | typeError => simp [EventCommon.input_chat, hp, hic, hge] at h
              | rpcError code =>
                  simp [EventCommon.input_chat, hp, hic, hge] at h
              | valueError =>
                  by_cases hbr : peer.isChannel = true ∨ e._message_id = none
                  · have hall := input_chat_dialog_branch c e peer hp hic hge hbr
                    have hx : (dialogScanLoop (get_peer_id peer) e
                        c.dialogs).1._input_chat = none := by
                      rw [hall] at h
                      simpa using h
                    rw [dialogScanLoop_event] at hx
                    cases hlm : lastMatch (get_peer_id peer) none c.dialogs with
                    | some d => rw [hlm] at hx; simp at hx
                    | none =>
                        have hev : (EventCommon.input_chat c e).event = e := by
                          rw [hall]
                          simp [dialogScanLoop_event, hlm]
                        rw [hev]
                  · push_neg at hbr
                    obtain ⟨hch, hmi⟩ := hbr
                    have hch2 : peer.isChannel = false :=
                      Bool.not_eq_true _ ▸ Bool.of_not_eq_true hch
                    obtain ⟨mid, hmid⟩ := Option.ne_none_iff_exists'.mp hmi
                    cases hgm : c.get_messages mid with
                    | err er2 =>
                        simp [EventCommon.input_chat, hp, hic, hge, hch2, hmid,
                          hgm] at h
                    | ok msg =>
                        have hmic : msg._input_chat = none := by
                          simp [EventCommon.input_chat, hp, hic, hge, hch2, hmid,
                            hgm] at h
                          exact h
                        simp [EventCommon.input_chat, hp, hic, hge, hch2, hmid,
                          hgm, hmic]

/-- Witness for `input_chat_absent_reattempts`: the failed resolution through
`clientW` is replayed identically on the next access. -/
theorem input_chat_absent_reattempts_witness :
    EventCommon.input_chat clientW
        ((EventCommon.input_chat clientW
          (EventCommon.init (some (Peer.chat 5)) none false)).event) =
      EventCommon.input_chat clientW
        (EventCommon.init (some (Peer.chat 5)) none false) :=
  (input_chat_absent_reattempts clientW
    (EventCommon.init (some (Peer.chat 5)) none false) (by decide)).2
